import Mathlib

set_option autoImplicit false

/-!
Verification of the safari-cli WebDriver protocol client and session
lifecycle manager (`src/webdriver.ts`, `src/session.ts`, `src/cli.ts`).

The JavaScript code is shallowly embedded: JSON values produced by
`JSON.parse` become an inductive `Json`; JavaScript truthiness becomes
`truthy`; the HTTP round trip performed by `fetch` is an explicit input
(`FetchResult`), so `WebDriver.request` becomes a pure function from the
fetch outcome to `Except WebDriverError ReqValue`; file-system effects
become either explicit state fields or operation traces.
-/

namespace SafariCli

/-- JSON values as produced by `JSON.parse` (numbers modelled as integers;
the claims under study involve no fractional numerics). -/
inductive Json where
  | null
  | bool (b : Bool)
  | num (n : Int)
  | str (s : String)
  | arr (elems : List Json)
  | obj (fields : List (String × Json))
deriving Repr

/-- JavaScript truthiness of a JSON value: `null`, `false`, `0` and the
empty string are falsy; every array and object is truthy. -/
def truthy : Json → Bool
  | .null => false
  | .bool b => b
  | .num n => decide (n ≠ 0)
  | .str s => decide (s ≠ "")
  | .arr _ => true
  | .obj _ => true

/-- First binding of a key in an association list (JSON objects have unique
keys, so this is the object's binding for the key). -/
def lookupField : List (String × Json) → String → Option Json
  | [], _ => none
  | (k, v) :: rest, key => if k = key then some v else lookupField rest key

/-- JavaScript property access `j[key]` on a JSON value: a present object
field, or `undefined` (here `none`) on anything else. -/
def getField : Json → String → Option Json
  | .obj fields, key => lookupField fields key
  | _, _ => none

/-- JavaScript `a || b` where `a` may be an absent property
(`json.value.message || json.value.error` in `request`). -/
def jsOrElse (a : Option Json) (b : Json) : Json :=
  match a with
  | some v => if truthy v then v else b
  | none => b

namespace WebDriver

/-- One HTTP response as observed by `request`: the status code, the raw
body text, and the result of `JSON.parse` on that text (`none` when the
body is not parseable as JSON). -/
structure HttpResponse where
  status : Nat
  body : String
  parsed : Option Json
deriving Repr

/-- Outcome of the `fetch` call in `request`: either the connection
attempt failed with an underlying cause message, or a response arrived. -/
inductive FetchResult where
  | failure (cause : String)
  | success (resp : HttpResponse)
deriving Repr

/-- The `WebDriverError` class, one constructor per construction site in
`request`: connection failure (line 42), non-JSON body with bad status
(line 53), and protocol-level error payload (line 62). -/
inductive WebDriverError where
  | connectionError (baseUrl : String) (cause : String)
  | httpError (status : Nat) (body : String)
  | protocolError (message : Json) (status : Nat) (code : Json)
deriving Repr

/-- The `message` field of the constructed `WebDriverError`, exactly as the
string (or protocol payload) passed to the class constructor. -/
def WebDriverError.message : WebDriverError → Json
  | .connectionError baseUrl cause =>
      .str ("Cannot connect to SafariDriver at " ++ baseUrl ++ ": " ++ cause)
  | .httpError status body =>
      .str ("HTTP " ++ toString status ++ ": " ++ body)
  | .protocolError m _ _ => m

/-- The `statusCode` field of the constructed `WebDriverError`
(`undefined`, i.e. `none`, for connection failures). -/
def WebDriverError.statusCode : WebDriverError → Option Nat
  | .connectionError _ _ => none
  | .httpError status _ => some status
  | .protocolError _ status _ => some status

/-- The `webdriverError` field of the constructed `WebDriverError`
(set only for protocol-level error payloads). -/
def WebDriverError.webdriverError : WebDriverError → Option Json
  | .connectionError _ _ => none
  | .httpError _ _ => none
  | .protocolError _ _ code => some code

/-- `response.ok`: HTTP status in the inclusive range 200–299. -/
def respOk (status : Nat) : Bool := decide (200 ≤ status ∧ status ≤ 299)

/-- What `request` resolves to on success: the raw body text (non-JSON body
with a success status) or `json.value` (`none` when the parsed JSON has no
`value` property). -/
inductive ReqValue where
  | text (s : String)
  | json (v : Option Json)
deriving Repr

/-- The response-handling core of `WebDriver.request`
(`src/webdriver.ts` lines 38–70), as a function of the fetch outcome.
`baseUrl` is the fixed `http://localhost:<port>` base address. Mirrors the
source: a fetch failure throws a `WebDriverError` carrying the base URL and
the cause; an unparseable body throws `HTTP <status>: <text>` with the
status when `!response.ok` and otherwise resolves to the raw text; a parsed
body throws a protocol error when `json.value && json.value.error` is
truthy, with message `json.value.message || json.value.error`, and
otherwise resolves to `json.value`. -/
def request (baseUrl : String) (fr : FetchResult) : Except WebDriverError ReqValue :=
  match fr with
  | .failure cause => .error (.connectionError baseUrl cause)
  | .success resp =>
    match resp.parsed with
    | none =>
      if respOk resp.status then .ok (.text resp.body)
      else .error (.httpError resp.status resp.body)
    | some json =>
      match getField json "value" with
      | none => .ok (.json none)
      | some jv =>
        if truthy jv then
          match getField jv "error" with
          | none => .ok (.json (some jv))
          | some e =>
            if truthy e then
              .error (.protocolError (jsOrElse (getField jv "message") e) resp.status e)
            else .ok (.json (some jv))
        else .ok (.json (some jv))

/-- Element-reference unwrapping in `findElement` (`src/webdriver.ts`
lines 177–179): `const keys = Object.keys(result); return result[keys[0]]`
applied to an object's field list — the value at the first enumerated key,
`undefined` (here `none`) for an empty object. -/
def extractRef (fields : List (String × Json)) : Option Json :=
  match fields with
  | [] => none
  | (k, _) :: _ => lookupField fields k

/-- The same unwrapping applied to one JSON result value; protocol element
references are single-key objects, and a non-object yields no enumerable
own key here. -/
def extractElementRef : Json → Option Json
  | .obj fields => extractRef fields
  | _ => none

/-- The mapping step of `findElements` (`src/webdriver.ts` lines 192–195):
the element-reference rule applied to every element of the list result. -/
def findElementsRefs (results : List Json) : List (Option Json) :=
  results.map extractElementRef

end WebDriver

/-- The persisted session record (`SessionState` in `src/session.ts`). -/
structure SessionState where
  port : Nat
  sessionId : String
  pid : Nat
  startedAt : String
deriving Repr, DecidableEq

/-- `STATE_DIR = join(homedir(), '.safari-cli')`. -/
def STATE_DIR (home : String) : String := home ++ "/.safari-cli"

/-- `STATE_FILE = join(STATE_DIR, 'session.json')`. -/
def STATE_FILE (home : String) : String := STATE_DIR home ++ "/session.json"

/-- The serialized record `JSON.stringify(state, null, 2) + '\n'` (two-space
indentation, fields in declaration order; escaping of special characters
inside the string fields is not modelled). -/
def serializeSession (s : SessionState) : String :=
  "\x7b\n  \"port\": " ++ toString s.port ++
  ",\n  \"sessionId\": \"" ++ s.sessionId ++
  "\",\n  \"pid\": " ++ toString s.pid ++
  ",\n  \"startedAt\": \"" ++ s.startedAt ++ "\"\n\x7d\n"

/-- File-system operations a persistence function may perform. -/
inductive FsOp where
  | mkdir (path : String)
  | write (path : String) (content : String)
  | rename (src : String) (dst : String)
deriving Repr, DecidableEq

/-- Operation trace of `saveSession` (`src/session.ts` lines 452–457):
`mkdirSync(STATE_DIR, { recursive: true })` when the directory is missing,
then `writeFileSync(STATE_FILE, JSON.stringify(state, null, 2) + '\n')`. -/
def saveSessionOps (home : String) (dirPresent : Bool) (s : SessionState) : List FsOp :=
  (if dirPresent then [] else [.mkdir (STATE_DIR home)]) ++
  [.write (STATE_FILE home) (serializeSession s)]

/-- The write discipline claim C8 describes, stated from the spec's words
("write to a temporary location and rename, or equivalent atomic
replace"): some temporary path distinct from the state file is renamed
onto the state file. -/
def atomicWriteDiscipline (home : String) (ops : List FsOp) : Prop :=
  ∃ tmp, tmp ≠ STATE_FILE home ∧ FsOp.rename tmp (STATE_FILE home) ∈ ops

/-- State of the state file as observed by `loadSession`: whether
`existsSync(STATE_FILE)` holds, the outcome of `readFileSync` (`none` when
reading throws), and the outcome of `JSON.parse` on the raw content
(`none` when the content is not parseable as JSON). -/
structure StateFileView where
  filePresent : Bool
  readResult : Option String
  parseResult : Option SessionState
deriving Repr

/-- The body of `loadSession` before its `catch`: return `null` when the
file is absent, otherwise read it and parse it, either step may throw. -/
def loadSessionBody (fs : StateFileView) : Except String (Option SessionState) :=
  if !fs.filePresent then .ok none
  else
    match fs.readResult with
    | none => .error "EACCES: readFileSync failed"
    | some _raw =>
      match fs.parseResult with
      | none => .error "SyntaxError: Unexpected token in JSON"
      | some s => .ok (some s)

/-- `loadSession` (`src/session.ts` lines 442–450): the body wrapped in
`try ... catch` returning `null` on any failure; total by construction. -/
def loadSession (fs : StateFileView) : Option SessionState :=
  match loadSessionBody fs with
  | .ok v => v
  | .error _ => none

/-- Environment of one `start` invocation: the OS liveness predicate
(`isProcessAlive`, `src/cli.ts` lines 29–36), the pid of the spawned
`safaridriver` child (`none` when `spawn` yields none), whether
`waitForDriver` succeeds before its deadline, the outcome of
`createSession` (`none` when it throws), and the current time string
(`new Date().toISOString()`). -/
structure StartEnv where
  alive : Nat → Bool
  spawnPid : Option Nat
  waitOk : Bool
  createResult : Option String
  now : String

/-- Outcome of the `start` command action. -/
inductive StartOutcome where
  | alreadyActive (s : SessionState)
  | spawnFailed
  | startupTimeout
  | createFailed
  | started (s : SessionState)
deriving Repr, DecidableEq

/-- Result of the `start` command action: the reported outcome, the
persisted record afterwards, how many driver processes were spawned and
how many protocol sessions were negotiated (`createSession` calls). -/
structure StartResult where
  outcome : StartOutcome
  stored : Option SessionState
  spawns : Nat
  negotiations : Nat
deriving Repr, DecidableEq

/-- The fresh-start path of the `start` action (`src/cli.ts` lines
158–201): spawn `safaridriver` (the `!child.pid` guard treats a missing or
zero pid as failure), wait for readiness, negotiate a session, persist
`{port, sessionId, pid, startedAt}`. Every failure exits without touching
the persisted record. -/
def spawnAndCreate (env : StartEnv) (stored : Option SessionState) (port : Nat) : StartResult :=
  match env.spawnPid with
  | none => ⟨.spawnFailed, stored, 1, 0⟩
  | some pid =>
    if pid = 0 then ⟨.spawnFailed, stored, 1, 0⟩
    else if !env.waitOk then ⟨.startupTimeout, stored, 1, 0⟩
    else
      match env.createResult with
      | none => ⟨.createFailed, stored, 1, 1⟩
      | some sid => ⟨.started ⟨port, sid, pid, env.now⟩, some ⟨port, sid, pid, env.now⟩, 1, 1⟩

/-- The `start` command action (`src/cli.ts` lines 146–201), the spec's
`startOrReuse`: when the persisted session's recorded process is alive,
report it and return without spawning or negotiating anything; otherwise
run the fresh-start path. -/
def startOrReuse (env : StartEnv) (stored : Option SessionState) (port : Nat) : StartResult :=
  match stored with
  | some existing =>
    if env.alive existing.pid then ⟨.alreadyActive existing, stored, 0, 0⟩
    else spawnAndCreate env stored port
  | none => spawnAndCreate env stored port

/-- The session the `start` action reports to the user, when any. -/
def reportedSession : StartOutcome → Option SessionState
  | .alreadyActive s => some s
  | .started s => some s
  | _ => none

/-- Environment of one `stop` invocation: whether the protocol-level
`deleteSession` throws, the OS liveness predicate, and whether
`process.kill(pid, 'SIGTERM')` throws. -/
structure StopEnv where
  deleteThrows : Bool
  alive : Nat → Bool
  killThrows : Bool

/-- Result of the `stop` command action: the persisted record afterwards
and which best-effort steps were attempted. -/
structure StopResult where
  stored : Option SessionState
  deleteAttempted : Bool
  killAttempted : Bool
deriving Repr

/-- The `stop` command action, the spec's `teardown` (`src/cli.ts` lines
204–228): with no record, return at once; otherwise attempt the protocol
session delete inside `try/catch`, attempt SIGTERM inside `try/catch` when
the recorded process is alive, then `clearSession()` unconditionally (the
state-file unlink itself is modelled as succeeding). -/
def stopAction (env : StopEnv) (stored : Option SessionState) : StopResult :=
  match stored with
  | none => ⟨none, false, false⟩
  | some s => ⟨none, true, env.alive s.pid⟩

/-- An error reaching the top-level handler: a `WebDriverError` or any
other thrown value, of which only the message is used. -/
inductive ThrownError where
  | wd (e : WebDriver.WebDriverError)
  | other (message : String)

/-- One `console.error` line printed by the top-level handler: the
`Error: <message>` line, or the fixed stale-session restart instruction
("Session is stale. Run safari-cli stop then safari-cli start."). -/
inductive HandlerLine where
  | errLine (message : Json)
  | staleNotice
deriving Repr

/-- Strict comparison `err.webdriverError === 'invalid session id'`: true
exactly when the error is a protocol error whose code is that string. -/
def isInvalidSessionId : WebDriver.WebDriverError → Bool
  | .protocolError _ _ (.str s) => decide (s = "invalid session id")
  | _ => false

/-- Result of the top-level handler: printed lines, persisted record
afterwards, and the process exit code. -/
structure HandlerResult where
  output : List HandlerLine
  stored : Option SessionState
  exitCode : Nat

/-- The global error handler in `main` (`src/cli.ts` lines 875–890),
shared by every command dispatched through `program.parseAsync`: print the
error message; when the error is a `WebDriverError` whose `webdriverError`
is exactly `"invalid session id"`, also print the restart instruction and
`clearSession()`; exit 1 in all cases. -/
def mainHandler (err : ThrownError) (stored : Option SessionState) : HandlerResult :=
  match err with
  | .wd e =>
    if isInvalidSessionId e then
      ⟨[.errLine e.message, .staleNotice], none, 1⟩
    else
      ⟨[.errLine e.message], stored, 1⟩
  | .other m => ⟨[.errLine (.str m)], stored, 1⟩

/-! ## Theorems settling the claims -/

/-- C1: for every response whose body parses as JSON and whose top-level
`value` has no `error` field, `request` resolves to exactly that `value`
(object or scalar alike), and a non-JSON body with a success status
resolves to the raw body text; callers never observe the `{value}`
envelope. -/
theorem request_value_passthrough (baseUrl : String) (resp : WebDriver.HttpResponse) :
    (∀ json jv, resp.parsed = some json → getField json "value" = some jv →
      getField jv "error" = none →
      WebDriver.request baseUrl (.success resp) = .ok (.json (some jv)))
    ∧ (resp.parsed = none → WebDriver.respOk resp.status = true →
      WebDriver.request baseUrl (.success resp) = .ok (.text resp.body)) := by
  constructor
  · intro json jv hp hv he
    cases htr : truthy jv <;> simp [WebDriver.request, hp, hv, he, htr]
  · intro hp hok
    simp [WebDriver.request, hp, hok]

/-- C1 witness: a scalar payload `{"value": 5}` passes through as `5`, and
a plain-text success body passes through as text. -/
theorem request_value_passthrough_witness :
    WebDriver.request "http://localhost:9515"
      (.success ⟨200, "", some (Json.obj [("value", Json.num 5)])⟩)
      = .ok (.json (some (Json.num 5)))
    ∧ WebDriver.request "http://localhost:9515" (.success ⟨200, "ok", none⟩)
      = .ok (.text "ok") :=
  ⟨(request_value_passthrough "http://localhost:9515"
      ⟨200, "", some (Json.obj [("value", Json.num 5)])⟩).1
      (Json.obj [("value", Json.num 5)]) (Json.num 5) rfl rfl rfl,
   (request_value_passthrough "http://localhost:9515" ⟨200, "ok", none⟩).2 rfl (by decide)⟩

/-- C2 counterexample: a response whose top-level `value` is an object
containing an `error` field holding the empty string is returned as a
success, not a `ProtocolError`, because line 61 tests `json.value.error`
for truthiness rather than presence. -/
theorem request_empty_error_counterexample :
    WebDriver.request "http://localhost:9515"
      (.success ⟨200, "", some (Json.obj [("value", Json.obj [("error", Json.str "")])])⟩)
      = .ok (.json (some (Json.obj [("error", Json.str "")])))
    ∧ ∀ m st c, WebDriver.request "http://localhost:9515"
        (.success ⟨200, "", some (Json.obj [("value", Json.obj [("error", Json.str "")])])⟩)
        ≠ .error (.protocolError m st c) := by
  constructor
  · rfl
  · intro m st c h
    exact Except.noConfusion h

/-- C2 (amended): for every JSON response whose top-level `value` is an
object whose `error` field is truthy (for string codes: non-empty),
`request` fails with a protocol error whose message is `value.message`
when that is present and truthy and `value.error` otherwise, carrying the
HTTP status code and the `value.error` payload. -/
theorem request_protocol_error (baseUrl : String) (resp : WebDriver.HttpResponse)
    (json jv e : Json)
    (hp : resp.parsed = some json) (hv : getField json "value" = some jv)
    (he : getField jv "error" = some e) (ht : truthy e = true) :
    WebDriver.request baseUrl (.success resp)
      = .error (.protocolError
          (match getField jv "message" with
           | some m => if truthy m then m else e
           | none => e)
          resp.status e) := by
  have hjv : truthy jv = true := by
    cases jv <;> simp [getField, truthy] at he ⊢
  simp [WebDriver.request, hp, hv, he, ht, hjv, jsOrElse]

/-- C2 witness: `value = {error: "invalid session id"}` with no `message`
fails with a protocol error whose message falls back to the code. -/
theorem request_protocol_error_witness :
    WebDriver.request "http://localhost:9515"
      (.success ⟨500, "",
        some (Json.obj [("value", Json.obj [("error", Json.str "invalid session id")])])⟩)
      = .error (.protocolError (Json.str "invalid session id") 500
          (Json.str "invalid session id")) :=
  request_protocol_error "http://localhost:9515"
    ⟨500, "", some (Json.obj [("value", Json.obj [("error", Json.str "invalid session id")])])⟩
    (Json.obj [("value", Json.obj [("error", Json.str "invalid session id")])])
    (Json.obj [("error", Json.str "invalid session id")])
    (Json.str "invalid session id") rfl rfl rfl (by decide)

/-- C3: a non-JSON-parseable body fails with the HTTP error carrying the
status and the raw body text when the status is not a success, and
resolves to the raw body text when the status is a success. -/
theorem request_non_json (baseUrl : String) (resp : WebDriver.HttpResponse)
    (hp : resp.parsed = none) :
    (WebDriver.respOk resp.status = false →
      WebDriver.request baseUrl (.success resp)
        = .error (.httpError resp.status resp.body))
    ∧ (WebDriver.respOk resp.status = true →
      WebDriver.request baseUrl (.success resp) = .ok (.text resp.body)) := by
  constructor <;> intro h <;> simp [WebDriver.request, hp, h]

/-- C3 witness: HTTP 404 with non-JSON body "Not Found" yields the HTTP
error with status 404 and body "Not Found". -/
theorem request_non_json_witness :
    WebDriver.request "http://localhost:9515" (.success ⟨404, "Not Found", none⟩)
      = .error (.httpError 404 "Not Found") :=
  (request_non_json "http://localhost:9515" ⟨404, "Not Found", none⟩ rfl).1 (by decide)

/-- C5: a failed connection attempt fails with the connection error
carrying the target base address and the underlying cause text, and this
outcome is never an HTTP error nor a successful return. -/
theorem request_connection_failure (baseUrl : String) (cause : String) :
    WebDriver.request baseUrl (.failure cause)
      = .error (.connectionError baseUrl cause)
    ∧ (∀ status body, WebDriver.request baseUrl (.failure cause)
        ≠ .error (.httpError status body))
    ∧ ∀ v, WebDriver.request baseUrl (.failure cause) ≠ .ok v := by
  refine ⟨rfl, fun status body h => ?_, fun v h => ?_⟩
  · simp [WebDriver.request] at h
  · simp [WebDriver.request] at h

/-- C5 witness: a refused connection to the default port yields the
connection error with the address and the cause. -/
theorem request_connection_failure_witness :
    WebDriver.request "http://localhost:9515" (.failure "ECONNREFUSED")
      = .error (.connectionError "http://localhost:9515" "ECONNREFUSED") :=
  (request_connection_failure "http://localhost:9515" "ECONNREFUSED").1

/-- C4: element-reference extraction reads whichever single key is
present — any key name yields the stored identifier, two reference objects
keyed under two distinct key names with the same identifier extract the
same value, and `findElements` applies the same rule to every element of a
list result. -/
theorem extractRef_key_independent (k1 k2 : String) (id : Json) (results : List Json) :
    WebDriver.extractElementRef (Json.obj [(k1, id)]) = some id
    ∧ WebDriver.extractElementRef (Json.obj [(k1, id)])
        = WebDriver.extractElementRef (Json.obj [(k2, id)])
    ∧ WebDriver.findElementsRefs results = results.map WebDriver.extractElementRef := by
  refine ⟨?_, ?_, rfl⟩ <;>
    simp [WebDriver.extractElementRef, WebDriver.extractRef, lookupField]

/-- C4 witness: the W3C key and the legacy `ELEMENT` key extract the same
identifier. -/
theorem extractRef_key_independent_witness :
    WebDriver.extractElementRef
        (Json.obj [("element-6066-11e4-a52e-4f735466cecf", Json.str "node-1")])
      = some (Json.str "node-1")
    ∧ WebDriver.extractElementRef (Json.obj [("ELEMENT", Json.str "node-1")])
      = some (Json.str "node-1") :=
  ⟨(extractRef_key_independent "element-6066-11e4-a52e-4f735466cecf" "ELEMENT"
      (Json.str "node-1") []).1,
   (extractRef_key_independent "ELEMENT" "element-6066-11e4-a52e-4f735466cecf"
      (Json.str "node-1") []).1⟩

/-- Whenever the `start` action reports a session, that session is the
persisted record afterwards, and at most one process was spawned. -/
theorem startOrReuse_reported (env : StartEnv) (stored : Option SessionState)
    (port : Nat) (s : SessionState)
    (h : reportedSession (startOrReuse env stored port).outcome = some s) :
    (startOrReuse env stored port).stored = some s
    ∧ (startOrReuse env stored port).spawns ≤ 1 := by
  unfold startOrReuse spawnAndCreate at h ⊢
  rcases stored with _ | existing <;>
    rcases hsp : env.spawnPid with _ | pid <;>
      cases hw : env.waitOk <;>
        rcases hc : env.createResult with _ | sid <;>
          simp_all [reportedSession] <;>
            split_ifs at h ⊢ <;>
              simp_all [reportedSession]

/-- C6: the `start` action is idempotent — when a call reports a session
and that session's process is alive at the next call, the next call
returns the same session unchanged, spawns no process and negotiates no
session, so two successive calls report the same `sessionId` and spawn at
most one process in total. -/
theorem startOrReuse_idempotent (env1 env2 : StartEnv) (port : Nat)
    (stored : Option SessionState) (s : SessionState)
    (h1 : reportedSession (startOrReuse env1 stored port).outcome = some s)
    (h2 : env2.alive s.pid = true) :
    startOrReuse env2 (startOrReuse env1 stored port).stored port
      = ⟨.alreadyActive s, (startOrReuse env1 stored port).stored, 0, 0⟩
    ∧ reportedSession
        (startOrReuse env2 (startOrReuse env1 stored port).stored port).outcome = some s
    ∧ (startOrReuse env1 stored port).spawns
        + (startOrReuse env2 (startOrReuse env1 stored port).stored port).spawns ≤ 1
    ∧ (startOrReuse env2 (startOrReuse env1 stored port).stored port).negotiations = 0 := by
  obtain ⟨hst, hsp⟩ := startOrReuse_reported env1 stored port s h1
  rw [hst]
  have h2' : startOrReuse env2 (some s) port = ⟨.alreadyActive s, some s, 0, 0⟩ := by
    simp [startOrReuse, h2]
  rw [h2']
  exact ⟨rfl, rfl, by simpa using hsp, rfl⟩

/-- C6 witness: a fresh start followed by a second call with the process
alive reuses the persisted session without spawning. -/
theorem startOrReuse_idempotent_witness :
    startOrReuse (⟨fun _ => true, none, false, none, "t1"⟩ : StartEnv)
        (startOrReuse (⟨fun _ => false, some 7, true, some "abc123", "t0"⟩ : StartEnv)
          none 9515).stored 9515
      = ⟨.alreadyActive ⟨9515, "abc123", 7, "t0"⟩,
         (startOrReuse (⟨fun _ => false, some 7, true, some "abc123", "t0"⟩ : StartEnv)
           none 9515).stored, 0, 0⟩ :=
  (startOrReuse_idempotent
    (⟨fun _ => false, some 7, true, some "abc123", "t0"⟩ : StartEnv)
    (⟨fun _ => true, none, false, none, "t1"⟩ : StartEnv)
    9515 none ⟨9515, "abc123", 7, "t0"⟩ rfl rfl).1

/-- C7: after the `stop` action no persisted session state remains, for
every environment — including a failing protocol delete, an already-dead
process and a failing kill; the delete is attempted whenever a record
exists and the kill whenever the recorded process is alive. -/
theorem stopAction_clears_state (env : StopEnv) (stored : Option SessionState) :
    (stopAction env stored).stored = none
    ∧ (stopAction env stored).deleteAttempted = stored.isSome
    ∧ (stopAction env stored).killAttempted
        = (stored.map (fun s => env.alive s.pid)).getD false := by
  cases stored <;> simp [stopAction]

/-- C7 witness: teardown with a dead process, a failing delete and a
failing kill still leaves no persisted state. -/
theorem stopAction_clears_state_witness :
    (stopAction (⟨true, fun _ => false, true⟩ : StopEnv)
        (some ⟨9515, "abc123", 7, "t0"⟩)).stored = none :=
  (stopAction_clears_state (⟨true, fun _ => false, true⟩ : StopEnv)
    (some ⟨9515, "abc123", 7, "t0"⟩)).1

/-- C8 counterexample: the operation trace of `saveSession` contains no
rename onto the state file — the record is written directly to its final
path, so the write-to-temporary-then-atomic-rename discipline the claim
describes does not hold. -/
theorem saveSession_no_rename_counterexample :
    ¬ atomicWriteDiscipline "/Users/u"
        (saveSessionOps "/Users/u" true ⟨9515, "abc123", 7, "t0"⟩) := by
  rintro ⟨tmp, -, hmem⟩
  simp [saveSessionOps] at hmem

/-- C8 (amended): `saveSession` writes the serialized record directly to
the final state-file path in a single write, with no temporary location
and no rename, and creates the containing directory, before the write,
exactly when it is missing. -/
theorem saveSession_direct_write (home : String) (s : SessionState) :
    saveSessionOps home true s = [.write (STATE_FILE home) (serializeSession s)]
    ∧ saveSessionOps home false s
        = [.mkdir (STATE_DIR home), .write (STATE_FILE home) (serializeSession s)]
    ∧ ∀ (d : Bool) (tmp : String),
        FsOp.rename tmp (STATE_FILE home) ∉ saveSessionOps home d s := by
  refine ⟨rfl, rfl, fun d tmp => ?_⟩
  cases d <;> simp [saveSessionOps]

/-- C8 witness: with the directory already present the trace is the single
direct write of the serialized record. -/
theorem saveSession_direct_write_witness :
    saveSessionOps "/Users/u" true ⟨9515, "abc123", 7, "t0"⟩
      = [.write (STATE_FILE "/Users/u") (serializeSession ⟨9515, "abc123", 7, "t0"⟩)] :=
  (saveSession_direct_write "/Users/u" ⟨9515, "abc123", 7, "t0"⟩).1

/-- C9: whatever command threw and whatever state was persisted, a
protocol error reaching the top-level handler with code exactly
`"invalid session id"` makes the handler clear the persisted state, print
the restart instruction, and exit 1. -/
theorem mainHandler_invalid_session (stored : Option SessionState) (m : Json) (status : Nat) :
    (mainHandler (.wd (.protocolError m status (.str "invalid session id"))) stored).stored
      = none
    ∧ HandlerLine.staleNotice
        ∈ (mainHandler (.wd (.protocolError m status (.str "invalid session id"))) stored).output
    ∧ (mainHandler (.wd (.protocolError m status (.str "invalid session id"))) stored).exitCode
      = 1 := by
  simp [mainHandler, isInvalidSessionId]

/-- C9 witness: an invalid-session protocol error thrown with a session
still persisted leaves no persisted state behind. -/
theorem mainHandler_invalid_session_witness :
    (mainHandler (.wd (.protocolError (Json.str "stale") 404 (.str "invalid session id")))
        (some ⟨9515, "abc123", 7, "t0"⟩)).stored = none :=
  (mainHandler_invalid_session (some ⟨9515, "abc123", 7, "t0"⟩) (Json.str "stale") 404).1

/-- C10: `loadSession` is total and treats an absent, unreadable or
malformed state file identically, returning `none` rather than raising;
with a present, readable, parseable file it returns the parsed record. -/
theorem loadSession_total (fs : StateFileView) :
    (fs.filePresent = false ∨ fs.readResult = none ∨ fs.parseResult = none →
      loadSession fs = none)
    ∧ ∀ raw s, fs.filePresent = true → fs.readResult = some raw →
        fs.parseResult = some s → loadSession fs = some s := by
  constructor
  · intro h
    rcases h with h | h | h <;>
      cases hfp : fs.filePresent <;>
        rcases hrr : fs.readResult with _ | raw <;>
          simp_all [loadSession, loadSessionBody]
  · intro raw s hfp hrr hpr
    simp [loadSession, loadSessionBody, hfp, hrr, hpr]

/-- C10 witness: a present but malformed state file loads as `none`,
exactly like an absent one. -/
theorem loadSession_total_witness :
    loadSession ⟨true, some "not json", none⟩ = none
    ∧ loadSession ⟨false, none, none⟩ = none :=
  ⟨(loadSession_total ⟨true, some "not json", none⟩).1 (Or.inr (Or.inr rfl)),
   (loadSession_total ⟨false, none, none⟩).1 (Or.inl rfl)⟩

end SafariCli
